import Mathlib

/-!
Verification of the ddgo repository's readiness aggregator
(`src/app/src/app.py`) and deployment rollout monitor
(`src/scripts/deploy.py`) against its specification.

The Python code is shallowly embedded: each stateful function becomes a
Lean function with explicit state passing, exceptions become `Except`,
and the behaviour of external collaborators (database, Redis, the
orchestrator API, subprocesses, the HTTP probe) is supplied as explicit
parameters describing their outcomes.
-/

namespace DDGo

/-! ## Readiness aggregator (`src/app/src/app.py`)

External dependency behaviour for one evaluation: whether creating the
database pool succeeds (`get_db_pool`, lines 56-74), the outcome of the
`SELECT 1` probe (lines 166-170), whether establishing the Redis client
succeeds (`get_redis`, lines 77-92), and the outcome of `r.ping()` in the
readiness handler (line 179).  An `Except.error` value models a raised
exception. -/
structure DepState where
  dbConnectOk : Bool
  dbQuery : Except Unit Unit
  redisConnectOk : Bool
  redisPing : Except Unit Bool

/-- The module-level mutable globals of `app.py` (lines 52-53):
`db_pool` (whether the pool object exists) and `redis_client`
(whether a client object is stored, i.e. the global is not `None`). -/
structure Globals where
  db_pool : Bool
  redis_client : Bool
deriving DecidableEq

/-- `get_db_pool` (app.py lines 56-74): returns the cached pool if present;
otherwise tries to create it, caching on success and re-raising the
creation failure.  The result is the updated globals, or an error when the
exception propagates to the caller. -/
def get_db_pool (env : DepState) (g : Globals) : Except Unit Globals :=
  if g.db_pool then .ok g
  else if env.dbConnectOk then .ok { g with db_pool := true }
  else .error ()

/-- `get_redis` (app.py lines 77-92): returns the cached client if present;
otherwise tries to create and ping one, storing it on success and storing
`None` (and returning `None`) on failure — it never raises.  The boolean
result is whether a client (non-`None`) was returned. -/
def get_redis (env : DepState) (g : Globals) : Globals × Bool :=
  if g.redis_client then (g, true)
  else if env.redisConnectOk then ({ g with redis_client := true }, true)
  else (g, false)

/-- The JSON body and HTTP response code built by the `readiness` handler
(app.py lines 188-192), with the `datetime.utcnow()` timestamp abstracted
as a number supplied by the caller. -/
structure Report where
  database : Bool
  cache : Bool
  status : String
  code : Nat
  timestamp : Nat
deriving DecidableEq

/-- The `readiness` handler (app.py lines 151-192).  The database check
(lines 163-174) catches every exception from `get_db_pool`/`getconn`/
`execute` and leaves `checks['database'] = False`; the Redis check
(lines 176-182) catches every exception from `r.ping()` and leaves
`checks['cache'] = False`.  Overall status is derived from the database
check alone (line 185). -/
def readiness (env : DepState) (g : Globals) (now : Nat) : Globals × Report :=
  let (g1, database) :=
    match get_db_pool env g with
    | .error () => (g, false)
    | .ok g' =>
      match env.dbQuery with
      | .ok () => (g', true)
      | .error () => (g', false)
  let (g2, haveClient) := get_redis env g1
  let cache :=
    if haveClient then
      match env.redisPing with
      | .ok b => b
      | .error () => false
    else false
  let is_ready := database
  let status_code := if is_ready then 200 else 503
  (g2,
   { database := database
     cache := cache
     status := if is_ready then "ready" else "not_ready"
     code := status_code
     timestamp := now })

/-- The database (required) check succeeds exactly when a pool is available
(cached or freshly created) and the `SELECT 1` probe succeeds. -/
def dbCheckPassed (env : DepState) (g : Globals) : Bool :=
  (g.db_pool || env.dbConnectOk) && (env.dbQuery matches .ok ())

/-- The database check raises an exception internally: either pool creation
fails (no cached pool and connecting fails) or the query raises. -/
def dbCheckRaises (env : DepState) (g : Globals) : Prop :=
  (¬g.db_pool ∧ ¬env.dbConnectOk) ∨
  ((g.db_pool ∨ env.dbConnectOk) ∧ env.dbQuery = .error ())

/-- The cache check raises an exception internally: a client was available
and its `ping()` raised. -/
def cacheCheckRaises (env : DepState) (g : Globals) : Prop :=
  (g.redis_client ∨ env.redisConnectOk) ∧ env.redisPing = .error ()

/-! ## Rollout monitor (`src/scripts/deploy.py`)

`Deployer.wait_for_deployment` (lines 269-303) polls
`aws ecs describe-services` every 15 seconds until the service's
deployment list has exactly one entry whose `rolloutState` is
`'COMPLETED'`, or until the elapsed time reaches the timeout.  Polls are
modelled as a function from tick index to outcome; the poll command and
JSON parsing may raise (a `run_command` failure raises `DeploymentError`,
line 71; malformed JSON raises from `json.loads`, line 289), modelled by
`PollOutcome.err`. -/

/-- One entry of the `deployments` list in the `describe-services`
response: its `rolloutState` string and `runningCount`/`desiredCount`
(deploy.py lines 290-297). -/
structure Gen where
  rolloutState : String
  runningCount : Nat
  desiredCount : Nat
deriving DecidableEq

/-- Outcome of one poll: the query or its JSON decoding raised
(`err`), or it produced a deployments list (`desc`). -/
inductive PollOutcome where
  | err : PollOutcome
  | desc : List Gen → PollOutcome
deriving DecidableEq

/-- How one loop iteration ends after a successful poll. -/
inductive StepResult where
  | completed : StepResult
  | inProgress : Nat → Nat → StepResult
  | raised : StepResult
deriving DecidableEq

/-- The body of the polling loop acting on a fetched deployments list
(deploy.py lines 292-298): return success when there is exactly one
deployment whose `rolloutState` is `'COMPLETED'`; otherwise read
`deployments[0]`'s running/desired counts for the progress log — which
raises `IndexError` when the list is empty — and keep going. -/
def pollStep (deployments : List Gen) : StepResult :=
  match deployments with
  | [g] =>
    if g.rolloutState = "COMPLETED" then .completed
    else .inProgress g.runningCount g.desiredCount
  | [] => .raised
  | g :: _ :: _ => .inProgress g.runningCount g.desiredCount

/-- How `wait_for_deployment` ends: returned `True` (`completed`),
returned `False` after the timeout (`timedOut`), or an exception escaped
to the caller (`raised`). -/
inductive WaitResult where
  | completed : WaitResult
  | timedOut : WaitResult
  | raised : WaitResult
deriving DecidableEq

/-- The `while time.time() - start < timeout` loop of
`wait_for_deployment` (deploy.py lines 279-303).  `elapsed` is the
wall-clock time since `start`; each iteration polls (`poll tick`), and on
a non-terminal descriptor sleeps 15 seconds before re-checking the
elapsed time.  Poll queries themselves are instantaneous in this model.
Returns the result together with the final elapsed time and the number
of polls made. -/
def waitLoop (poll : Nat → PollOutcome) (timeout elapsed tick : Nat) :
    WaitResult × Nat × Nat :=
  if _h : elapsed < timeout then
    match poll tick with
    | .err => (.raised, elapsed, tick + 1)
    | .desc gens =>
      match pollStep gens with
      | .completed => (.completed, elapsed, tick + 1)
      | .raised => (.raised, elapsed, tick + 1)
      | .inProgress _ _ => waitLoop poll timeout (elapsed + 15) (tick + 1)
  else (.timedOut, elapsed, tick)
termination_by timeout - elapsed
decreasing_by omega

/-- `Deployer.wait_for_deployment` (deploy.py lines 269-303): in dry-run
mode it returns `True` immediately without polling; otherwise it runs the
polling loop from elapsed time 0. -/
def wait_for_deployment (dry_run : Bool) (poll : Nat → PollOutcome)
    (timeout : Nat) : WaitResult × Nat × Nat :=
  if dry_run then (.completed, 0, 0)
  else waitLoop poll timeout 0 0

/-- Outcome of one health probe in `verify_deployment`
(deploy.py lines 318-326): the HTTP request returned a status code
(`ok`), or raised `URLError` (`err`). -/
inductive ProbeOutcome where
  | ok : Nat → ProbeOutcome
  | err : ProbeOutcome
deriving DecidableEq

/-- The `for attempt in range(5)` loop of `verify_deployment`
(deploy.py lines 318-326), with `remaining` attempts left, the current
attempt index, and the total time slept so far.  A 200 response returns
`True` at once; a `URLError` sleeps 10 seconds and retries; a non-200
response without an exception just moves to the next attempt.  After the
attempts are exhausted the function returns `False` (line 329). -/
def verifyAux (probe : Nat → ProbeOutcome) :
    Nat → Nat → Nat → Bool × Nat
  | 0, _, slept => (false, slept)
  | remaining + 1, attempt, slept =>
    match probe attempt with
    | .ok status =>
      if status = 200 then (true, slept)
      else verifyAux probe remaining (attempt + 1) slept
    | .err => verifyAux probe remaining (attempt + 1) (slept + 10)

/-- `Deployer.verify_deployment` (deploy.py lines 305-329): in dry-run
mode it returns `True` without probing; otherwise it runs the bounded
retry loop with 5 attempts.  Returns the result and total time slept. -/
def verify_deployment (dry_run : Bool) (probe : Nat → ProbeOutcome) :
    Bool × Nat :=
  if dry_run then (true, 0)
  else verifyAux probe 5 0 0

/-! ## The full deployment operation (`Deployer.deploy` and helpers)

Every external process invocation is recorded.  `run_command`
(deploy.py lines 47-71) skips execution entirely in dry-run mode;
`check_prerequisites` (lines 73-109) calls `subprocess.run` directly and
therefore executes its probes regardless of the dry-run flag.  The
command list records attempted invocations, in order. -/

/-- An external command, as its argument vector. -/
abbrev Cmd := List String

/-- Behaviour of the external world during a deployment: whether each
prerequisite probe succeeds, whether arbitrary commands run by
`run_command` succeed, the direct `docker login` result, the parsed
Terraform outputs, the orchestrator poll and health-probe behaviour, and
the strings read back from the orchestrator. -/
structure ExtEnv where
  dockerOk : Bool
  awsOk : Bool
  terraformOk : Bool
  credsOk : Bool
  cmdOk : Cmd → Bool
  loginOk : Bool
  outputs : String → Option String
  poll : Nat → PollOutcome
  probe : Nat → ProbeOutcome
  tag : String
  currentTaskDef : String
  newTaskDefArn : String

/-- `Deployer.run_command` (deploy.py lines 47-71): in dry-run mode it
logs and returns a zero-exit stub without executing anything; otherwise
it executes the command, raising `DeploymentError` (modelled as
`Except.error`) when the command fails.  The second component records the
invocations performed. -/
def run_command (dry_run : Bool) (env : ExtEnv) (cmd : Cmd) :
    Except Unit Unit × List Cmd :=
  if dry_run then (.ok (), [])
  else if env.cmdOk cmd then (.ok (), [cmd]) else (.error (), [cmd])

/-- `Deployer.check_prerequisites` (deploy.py lines 73-109): probes
`docker`, `aws` and `terraform` with `--version` through direct
`subprocess.run` calls (not `run_command`, so the dry-run flag has no
effect), returning `False` if any is missing; then checks AWS credentials
with `aws sts get-caller-identity`, returning `False` when that fails.
Returns success together with the invocations attempted. -/
def check_prerequisites (env : ExtEnv) : Bool × List Cmd :=
  let toolCmds : List Cmd :=
    [["docker", "--version"], ["aws", "--version"], ["terraform", "--version"]]
  let missing : List String :=
    (if env.dockerOk then [] else ["docker"]) ++
    (if env.awsOk then [] else ["aws"]) ++
    (if env.terraformOk then [] else ["terraform"])
  if missing ≠ [] then (false, toolCmds)
  else (env.credsOk, toolCmds ++ [["aws", "sts", "get-caller-identity"]])

/-- `Deployer.deploy_terraform` (deploy.py lines 163-195): runs
`terraform init`, `plan`, `apply` and `output` through `run_command`; a
failure of any raises `DeploymentError`.  In dry-run mode the parsed
outputs are the empty dictionary (line 195), otherwise they come from the
`output -json` result. -/
def deploy_terraform (dry_run : Bool) (env : ExtEnv) :
    Except Unit (String → Option String) × List Cmd :=
  let (r1, c1) := run_command dry_run env ["terraform", "init"]
  match r1 with
  | .error () => (.error (), c1)
  | .ok () =>
    let (r2, c2) := run_command dry_run env ["terraform", "plan", "-out=tfplan"]
    match r2 with
    | .error () => (.error (), c1 ++ c2)
    | .ok () =>
      let (r3, c3) :=
        run_command dry_run env ["terraform", "apply", "-auto-approve", "tfplan"]
      match r3 with
      | .error () => (.error (), c1 ++ c2 ++ c3)
      | .ok () =>
        let (r4, c4) := run_command dry_run env ["terraform", "output", "-json"]
        match r4 with
        | .error () => (.error (), c1 ++ c2 ++ c3 ++ c4)
        | .ok () =>
          (.ok (if dry_run then fun _ => none else env.outputs),
           c1 ++ c2 ++ c3 ++ c4)

/-- `Deployer.build_image` (deploy.py lines 111-128): builds
`ddgo-api:<tag>` through `run_command` and returns the image name. -/
def build_image (dry_run : Bool) (env : ExtEnv) (tag : String) :
    Except Unit String × List Cmd :=
  let image_name := "ddgo-api:" ++ tag
  let (r, c) := run_command dry_run env
    ["docker", "build", "-f", "docker/Dockerfile", "-t", image_name,
     "--target", "production", "."]
  match r with
  | .error () => (.error (), c)
  | .ok () => (.ok image_name, c)

/-- `Deployer.push_to_ecr` (deploy.py lines 130-161): fetches the ECR
login password through `run_command`; outside dry-run, performs the
direct `docker login` `subprocess.run` (lines 140-151, `check=True`, so
its failure raises uncaught past `run_command`'s handler); then tags and
pushes through `run_command`, returning the pushed image reference. -/
def push_to_ecr (dry_run : Bool) (env : ExtEnv)
    (image_name ecr_repo : String) : Except Unit String × List Cmd :=
  let (r1, c1) := run_command dry_run env
    ["aws", "ecr", "get-login-password", "--region", "us-east-1"]
  match r1 with
  | .error () => (.error (), c1)
  | .ok () =>
    let registry := ((ecr_repo.splitOn "/").headD "")
    let login_cmd : Cmd :=
      ["docker", "login", "--username", "AWS", "--password-stdin", registry]
    let (rl, cl) : Except Unit Unit × List Cmd :=
      if dry_run then (.ok (), [])
      else if env.loginOk then (.ok (), [login_cmd]) else (.error (), [login_cmd])
    match rl with
    | .error () => (.error (), c1 ++ cl)
    | .ok () =>
      let ecr_image :=
        ecr_repo ++ ":" ++ (((image_name.splitOn ":").getD 1 ""))
      let (r2, c2) := run_command dry_run env ["docker", "tag", image_name, ecr_image]
      match r2 with
      | .error () => (.error (), c1 ++ cl ++ c2)
      | .ok () =>
        let (r3, c3) := run_command dry_run env ["docker", "push", ecr_image]
        match r3 with
        | .error () => (.error (), c1 ++ cl ++ c2 ++ c3)
        | .ok () => (.ok ecr_image, c1 ++ cl ++ c2 ++ c3)

/-- `Deployer.update_ecs_service` (deploy.py lines 197-267): queries the
current task definition through `run_command`; in dry-run mode it then
returns at once (lines 213-215); otherwise it reads the task definition,
registers an updated one and points the service at it, each through
`run_command`. -/
def update_ecs_service (dry_run : Bool) (env : ExtEnv)
    (cluster service image : String) : Except Unit Unit × List Cmd :=
  let (r1, c1) := run_command dry_run env
    ["aws", "ecs", "describe-services", "--cluster", cluster,
     "--services", service, "--query", "services[0].taskDefinition",
     "--output", "text"]
  match r1 with
  | .error () => (.error (), c1)
  | .ok () =>
    if dry_run then (.ok (), c1)
    else
      let (r2, c2) := run_command dry_run env
        ["aws", "ecs", "describe-task-definition",
         "--task-definition", env.currentTaskDef]
      match r2 with
      | .error () => (.error (), c1 ++ c2)
      | .ok () =>
        let (r3, c3) := run_command dry_run env
          ["aws", "ecs", "register-task-definition",
           "--cli-input-json", "<task-definition-json " ++ image ++ ">"]
        match r3 with
        | .error () => (.error (), c1 ++ c2 ++ c3)
        | .ok () =>
          let (r4, c4) := run_command dry_run env
            ["aws", "ecs", "update-service", "--cluster", cluster,
             "--service", service, "--task-definition", env.newTaskDefArn]
          match r4 with
          | .error () => (.error (), c1 ++ c2 ++ c3 ++ c4)
          | .ok () => (.ok (), c1 ++ c2 ++ c3 ++ c4)

/-- The `describe-services` poll command issued on each tick of
`wait_for_deployment` (deploy.py lines 280-287). -/
def describeCmd (cluster service : String) : Cmd :=
  ["aws", "ecs", "describe-services", "--cluster", cluster,
   "--services", service]

/-- `Deployer.deploy` (deploy.py lines 331-379): prerequisites, optional
Terraform, optional image build and push, service update, rollout wait,
health verification.  `DeploymentError` and any other exception raised by
a step is caught at the bottom and turned into `False` (lines 374-379).
Returns overall success and every external invocation attempted. -/
def deploy (environment : String) (dry_run : Bool)
    (skip_build skip_terraform : Bool) (env : ExtEnv) : Bool × List Cmd :=
  let (preOk, preCmds) := check_prerequisites env
  if !preOk then (false, preCmds)
  else
    let (tfRes, tfCmds) :=
      if skip_terraform then (.ok (fun _ => none), [])
      else deploy_terraform dry_run env
    match tfRes with
    | .error () => (false, preCmds ++ tfCmds)
    | .ok outputs =>
      let (imgRes, imgCmds) :=
        if skip_build then (Except.ok "nginx:alpine", [])
        else
          match build_image dry_run env env.tag with
          | (.error (), bc) => (.error (), bc)
          | (.ok image, bc) =>
            let ecr_repo := (outputs "ecr_repository").getD "ddgo-api"
            match push_to_ecr dry_run env image ecr_repo with
            | (.error (), pc) => (.error (), bc ++ pc)
            | (.ok ecr_image, pc) => (.ok ecr_image, bc ++ pc)
      match imgRes with
      | .error () => (false, preCmds ++ tfCmds ++ imgCmds)
      | .ok ecr_image =>
        let cluster := (outputs "ecs_cluster_name").getD ("ddgo-" ++ environment)
        let service :=
          (outputs "ecs_service_name").getD ("ddgo-" ++ environment ++ "-app")
        let (updRes, updCmds) :=
          update_ecs_service dry_run env cluster service ecr_image
        match updRes with
        | .error () => (false, preCmds ++ tfCmds ++ imgCmds ++ updCmds)
        | .ok () =>
          let (waitRes, _, polls) := wait_for_deployment dry_run env.poll 600
          let waitCmds := List.replicate polls (describeCmd cluster service)
          if waitRes ≠ .completed then
            (false, preCmds ++ tfCmds ++ imgCmds ++ updCmds ++ waitCmds)
          else
            let (verOk, _) := verify_deployment dry_run env.probe
            (verOk, preCmds ++ tfCmds ++ imgCmds ++ updCmds ++ waitCmds)

/-- The commands `check_prerequisites` may attempt: all are read-only
probes (version queries and a caller-identity lookup). -/
def prereqCmds : List Cmd :=
  [["docker", "--version"], ["aws", "--version"], ["terraform", "--version"],
   ["aws", "sts", "get-caller-identity"]]

/-! ## Deployer construction and the CLI driver -/

/-- The fields `Deployer.__init__` stores (deploy.py lines 43-44);
`start_time` is abstracted away. -/
structure Deployer where
  environment : String
  dry_run : Bool
deriving DecidableEq

/-- `Deployer.VALID_ENVIRONMENTS` (deploy.py line 36). -/
def VALID_ENVIRONMENTS : List String := ["dev", "staging", "prod"]

/-- `Deployer.__init__` (deploy.py lines 39-45): raises `ValueError`
(modelled as `Except.error`) when the environment is not listed in
`VALID_ENVIRONMENTS`; otherwise stores the environment and dry-run
flag. -/
def Deployer.mk' (environment : String) (dry_run : Bool) :
    Except Unit Deployer :=
  if environment ∈ VALID_ENVIRONMENTS then
    .ok { environment := environment, dry_run := dry_run }
  else .error ()

/-- Python's `str.lower()` on the response string (deploy.py line 428),
character by character. -/
def pyLower (s : String) : String := String.mk (s.data.map Char.toLower)

/-- The command-line arguments of the driver (deploy.py lines 394-418). -/
structure Args where
  environment : String
  dry_run : Bool
  skip_build : Bool
  skip_terraform : Bool
  verbose : Bool
deriving DecidableEq

/-- How a run of the driver ends: `sys.exit` before a `Deployer` was
constructed, or a `Deployer` was constructed and `deploy` ran, exiting
with the resulting code. -/
inductive MainResult where
  | exited : Nat → MainResult
  | ran : Deployer → Nat → MainResult
  | raised : MainResult
deriving DecidableEq

/-- The driver `main` (deploy.py lines 382-438), after argument parsing.
For a production deployment without dry-run it prompts; unless the
response lowercased is exactly `"y"` it exits with code 0 (lines
426-430).  Otherwise it constructs the `Deployer` and runs `deploy`,
whose boolean result (abstracted as `deploySuccess`) chooses exit code 0
or 1 (lines 432-438). -/
def main (args : Args) (userResponse : String) (deploySuccess : Bool) :
    MainResult :=
  if args.environment = "prod" && !args.dry_run then
    if pyLower userResponse ≠ "y" then .exited 0
    else
      match Deployer.mk' args.environment args.dry_run with
      | .error () => .raised
      | .ok d => .ran d (if deploySuccess then 0 else 1)
  else
    match Deployer.mk' args.environment args.dry_run with
    | .error () => .raised
    | .ok d => .ran d (if deploySuccess then 0 else 1)

/-! ## Derived notions and concrete scenario inputs -/

/-- The cache (best-effort) check succeeds exactly when a client is
available (cached or freshly connected) and its `ping()` returns a truthy
value. -/
def cacheCheckPassed (env : DepState) (g : Globals) : Bool :=
  (g.redis_client || env.redisConnectOk) && (env.redisPing matches .ok true)

/-- A poll outcome that keeps the rollout in progress: a descriptor on
which the loop body neither succeeds nor raises. -/
def inProgressPoll (o : PollOutcome) : Prop :=
  ∃ gens r d, o = .desc gens ∧ pollStep gens = .inProgress r d

/-- A poll that always fails (query error / malformed response). -/
def pollAllErr : Nat → PollOutcome := fun _ => .err

/-- A rollout generation that is still being replaced. -/
def genInProgress : Gen :=
  { rolloutState := "IN_PROGRESS", runningCount := 1, desiredCount := 2 }

/-- A poll that always reports two concurrent generations. -/
def pollStuck : Nat → PollOutcome :=
  fun _ => .desc [genInProgress, genInProgress]

/-- A fully rolled-out generation. -/
def genCompleted : Gen :=
  { rolloutState := "COMPLETED", runningCount := 2, desiredCount := 2 }

/-- A health probe failing on the first four attempts and succeeding on
the fifth. -/
def probeLateOk : Nat → ProbeOutcome :=
  fun i => if i < 4 then .err else .ok 200

/-- A health probe that always fails. -/
def probeAllErr : Nat → ProbeOutcome := fun _ => .err

/-- `probeLateOk` altered only from the sixth attempt on. -/
def probeAltered : Nat → ProbeOutcome :=
  fun i => if i = 7 then .err else probeLateOk i

/-- An external world where every prerequisite and command succeeds and
the rollout never finishes. -/
def envStuck : ExtEnv :=
  { dockerOk := true, awsOk := true, terraformOk := true, credsOk := true,
    cmdOk := fun _ => true, loginOk := true, outputs := fun _ => none,
    poll := pollStuck, probe := fun _ => .ok 200, tag := "20250101-000000",
    currentTaskDef := "ddgo-task:1", newTaskDefArn := "arn:new" }

/-- `envStuck` with `docker` missing from the PATH. -/
def envNoDocker : ExtEnv := { envStuck with dockerOk := false }

/-- `envStuck` with every orchestrator poll failing. -/
def envPollErr : ExtEnv := { envStuck with poll := pollAllErr }

/-! ## Theorems -/

/-- Full characterization of one readiness evaluation: the updated
globals cache whatever could be established, and the report is determined
by `dbCheckPassed` and `cacheCheckPassed`. -/
lemma readiness_eq (env : DepState) (g : Globals) (now : Nat) :
    readiness env g now =
      ({ db_pool := g.db_pool || env.dbConnectOk,
         redis_client := g.redis_client || env.redisConnectOk },
       { database := dbCheckPassed env g
         cache := cacheCheckPassed env g
         status := if dbCheckPassed env g then "ready" else "not_ready"
         code := if dbCheckPassed env g then 200 else 503
         timestamp := now }) := by
  obtain ⟨dc, dq, rc, rp⟩ := env
  obtain ⟨dp, rcl⟩ := g
  cases dp <;> cases dc <;>
    rcases dq with ⟨⟨⟩⟩ | ⟨⟨⟩⟩ <;>
    cases rcl <;> cases rc <;>
    rcases rp with ⟨⟨⟩⟩ | ⟨_ | _⟩ <;>
    rfl

/-- C1: the readiness evaluation reports status `'ready'` with HTTP 200
if and only if the required (database) check passed, and `'not_ready'`
with HTTP 503 otherwise; the outcome of the best-effort (cache) check
never affects the overall status or response code. -/
theorem readiness_ready_iff_required (env : DepState) (g : Globals) (now : Nat) :
    (((readiness env g now).2.status = "ready" ∧
        (readiness env g now).2.code = 200) ↔ dbCheckPassed env g = true)
    ∧ (dbCheckPassed env g = false →
        (readiness env g now).2.status = "not_ready" ∧
        (readiness env g now).2.code = 503)
    ∧ (∀ env' : DepState, env'.dbConnectOk = env.dbConnectOk →
        env'.dbQuery = env.dbQuery →
        (readiness env' g now).2.status = (readiness env g now).2.status ∧
        (readiness env' g now).2.code = (readiness env g now).2.code) := by
  refine ⟨?_, ?_, ?_⟩
  · rw [readiness_eq]
    cases h : dbCheckPassed env g <;> simp
  · rw [readiness_eq]
    intro h
    simp [h]
  · intro env' h1 h2
    rw [readiness_eq, readiness_eq]
    have : dbCheckPassed env' g = dbCheckPassed env g := by
      simp [dbCheckPassed, h1, h2]
    simp [this]

/-- Witness for C1: with the database check failing and the cache check
passing, the report is `not_ready`/503; and replacing the passing cache
behaviour by a failing one leaves the status unchanged. -/
theorem readiness_ready_iff_required_witness :
    ((readiness ⟨true, .error (), true, .ok true⟩ ⟨false, false⟩ 0).2.status
        = "not_ready"
      ∧ (readiness ⟨true, .error (), true, .ok true⟩ ⟨false, false⟩ 0).2.code
        = 503)
    ∧ (readiness ⟨true, .error (), false, .error ()⟩ ⟨false, false⟩ 0).2.status
        = (readiness ⟨true, .error (), true, .ok true⟩ ⟨false, false⟩ 0).2.status :=
  ⟨(readiness_ready_iff_required ⟨true, .error (), true, .ok true⟩
      ⟨false, false⟩ 0).2.1 (by decide),
   ((readiness_ready_iff_required ⟨true, .error (), true, .ok true⟩
      ⟨false, false⟩ 0).2.2 ⟨true, .error (), false, .error ()⟩ rfl rfl).1⟩

/-- C5: every exception raised while executing a dependency check is
caught inside the `readiness` handler — the failing check is recorded as
`false`, the other fields are still well-formed, and a required-check
failure yields `not_ready`/503.  (`readiness` is a total function into
`Globals × Report`, so no exception escapes its boundary by
construction.) -/
theorem readiness_no_escape (env : DepState) (g : Globals) (now : Nat) :
    (dbCheckRaises env g →
      (readiness env g now).2.database = false ∧
      (readiness env g now).2.status = "not_ready" ∧
      (readiness env g now).2.code = 503)
    ∧ (cacheCheckRaises env g → (readiness env g now).2.cache = false) := by
  constructor
  · intro h
    have hdb : dbCheckPassed env g = false := by
      rcases h with ⟨h1, h2⟩ | ⟨_, h2⟩
      · simp [dbCheckPassed, h1, h2]
      · simp [dbCheckPassed, h2]
    rw [readiness_eq]
    simp [hdb]
  · intro h
    have hc : cacheCheckPassed env g = false := by
      rcases h with ⟨_, h2⟩
      simp [cacheCheckPassed, h2]
    rw [readiness_eq]
    simp [hc]

/-- Witness for C5: the database check raising a connection error and the
cache ping raising both get recorded as failed checks, with overall
status `not_ready`/503. -/
theorem readiness_no_escape_witness :
    ((readiness ⟨false, .error (), true, .error ()⟩ ⟨false, false⟩ 7).2.database
        = false ∧
      (readiness ⟨false, .error (), true, .error ()⟩ ⟨false, false⟩ 7).2.status
        = "not_ready" ∧
      (readiness ⟨false, .error (), true, .error ()⟩ ⟨false, false⟩ 7).2.code
        = 503)
    ∧ (readiness ⟨false, .error (), true, .error ()⟩ ⟨false, false⟩ 7).2.cache
        = false :=
  ⟨(readiness_no_escape ⟨false, .error (), true, .error ()⟩ ⟨false, false⟩ 7).1
      (Or.inl ⟨by decide, by decide⟩),
   (readiness_no_escape ⟨false, .error (), true, .error ()⟩ ⟨false, false⟩ 7).2
      ⟨Or.inr (by decide), rfl⟩⟩

/-- C8: re-evaluating the readiness check with unchanged dependency
behaviour yields a report with identical check booleans, status and
response code — only the timestamp may differ.  The first evaluation may
mutate the lazily-initialized globals; the second starts from the
mutated globals. -/
theorem readiness_idempotent (env : DepState) (g : Globals) (now now' : Nat) :
    (readiness env ((readiness env g now).1) now').2.database
        = (readiness env g now).2.database
    ∧ (readiness env ((readiness env g now).1) now').2.cache
        = (readiness env g now).2.cache
    ∧ (readiness env ((readiness env g now).1) now').2.status
        = (readiness env g now).2.status
    ∧ (readiness env ((readiness env g now).1) now').2.code
        = (readiness env g now).2.code := by
  obtain ⟨dc, dq, rc, rp⟩ := env
  obtain ⟨dp, rcl⟩ := g
  cases dp <;> cases dc <;>
    rcases dq with ⟨⟨⟩⟩ | ⟨⟨⟩⟩ <;>
    cases rcl <;> cases rc <;>
    rcases rp with ⟨⟨⟩⟩ | ⟨_ | _⟩ <;>
    exact ⟨rfl, rfl, rfl, rfl⟩

/-- C9: constructing a `Deployer` raises `ValueError` exactly when the
environment string is not one of `dev`, `staging`, `prod`; for a valid
environment, construction succeeds and stores the environment and the
dry-run flag unchanged. -/
theorem deployer_init_validates (e : String) (d : Bool) :
    (Deployer.mk' e d = .error () ↔ e ∉ VALID_ENVIRONMENTS)
    ∧ (e ∈ VALID_ENVIRONMENTS →
        Deployer.mk' e d = .ok { environment := e, dry_run := d }) := by
  constructor
  · by_cases h : e ∈ VALID_ENVIRONMENTS <;> simp [Deployer.mk', h]
  · intro h
    simp [Deployer.mk', h]

/-- Witness for C9: `"qa"` is rejected, `"dev"` is accepted with its
fields stored. -/
theorem deployer_init_validates_witness :
    Deployer.mk' "qa" true = .error ()
    ∧ Deployer.mk' "dev" false = .ok { environment := "dev", dry_run := false } :=
  ⟨(deployer_init_validates "qa" true).1.mpr (by decide),
   (deployer_init_validates "dev" false).2 (by decide)⟩

/-- C10: for a production deployment without the dry-run flag, the driver
exits with code 0 before constructing a `Deployer` unless the response,
lowercased, equals `"y"`; with a `"y"`-equivalent response it proceeds to
construct the `Deployer` and run the deployment. -/
theorem main_prod_requires_confirmation (args : Args) (resp : String)
    (ds : Bool) (henv : args.environment = "prod")
    (hdry : args.dry_run = false) :
    (main args resp ds = .exited 0 ↔ pyLower resp ≠ "y")
    ∧ (pyLower resp = "y" →
        main args resp ds =
          .ran { environment := "prod", dry_run := false }
            (if ds then 0 else 1)) := by
  have hmk : Deployer.mk' "prod" false =
      .ok { environment := "prod", dry_run := false } := rfl
  constructor
  · by_cases h : pyLower resp = "y"
    · simp [main, henv, hdry, h, hmk]
    · simp [main, henv, hdry, h]
  · intro h
    simp [main, henv, hdry, h, hmk]

/-- Witness for C10: response `"No"` cancels with exit code 0; response
`"Y"` proceeds into the deployment. -/
theorem main_prod_requires_confirmation_witness :
    main ⟨"prod", false, false, false, false⟩ "No" true = .exited 0
    ∧ main ⟨"prod", false, false, false, false⟩ "Y" true =
        .ran { environment := "prod", dry_run := false } 0 :=
  ⟨(main_prod_requires_confirmation ⟨"prod", false, false, false, false⟩
      "No" true rfl rfl).1.mpr (by decide),
   (main_prod_requires_confirmation ⟨"prod", false, false, false, false⟩
      "Y" true rfl rfl).2 (by decide)⟩

/-- The verification loop only ever consults the probes it has attempts
left for. -/
lemma verifyAux_agree (probe probe' : Nat → ProbeOutcome) :
    ∀ rem attempt slept,
      (∀ i, attempt ≤ i → i < attempt + rem → probe i = probe' i) →
      verifyAux probe rem attempt slept = verifyAux probe' rem attempt slept := by
  intro rem
  induction rem with
  | zero => intro attempt slept _; rfl
  | succ n ih =>
    intro attempt slept h
    have h0 : probe attempt = probe' attempt := h attempt le_rfl (by omega)
    have h' : ∀ i, attempt + 1 ≤ i → i < attempt + 1 + n → probe i = probe' i :=
      fun i h1 h2 => h i (by omega) (by omega)
    simp only [verifyAux, h0]
    cases probe' attempt with
    | err => exact ih (attempt + 1) (slept + 10) h'
    | ok status =>
      by_cases hs : status = 200
      · simp [hs]
      · simp only [if_neg hs]
        exact ih (attempt + 1) slept h'

/-- C3: the post-rollout verification makes at most 5 probe attempts
(probes beyond the fifth never influence the result), sleeps a fixed 10
seconds after each failed attempt, succeeds on the first 200 response
(after 4 failures and a success on the 5th attempt it returns `true`
having slept 4 × 10), and returns `false` once all 5 attempts fail. -/
theorem verify_bounded_retries (probe probe' : Nat → ProbeOutcome) :
    ((∀ i, i < 5 → probe i = probe' i) →
      verify_deployment false probe = verify_deployment false probe')
    ∧ ((∀ i, i < 4 → probe i = .err) → probe 4 = .ok 200 →
      verify_deployment false probe = (true, 40))
    ∧ ((∀ i, i < 5 → probe i = .err) →
      verify_deployment false probe = (false, 50)) := by
  refine ⟨?_, ?_, ?_⟩
  · intro h
    simp only [verify_deployment, Bool.false_eq_true, if_false]
    exact verifyAux_agree probe probe' 5 0 0 fun i h1 h2 => h i (by omega)
  · intro hfail hok
    have h0 := hfail 0 (by omega)
    have h1 := hfail 1 (by omega)
    have h2 := hfail 2 (by omega)
    have h3 := hfail 3 (by omega)
    simp [verify_deployment, verifyAux, h0, h1, h2, h3, hok]
  · intro hfail
    have h0 := hfail 0 (by omega)
    have h1 := hfail 1 (by omega)
    have h2 := hfail 2 (by omega)
    have h3 := hfail 3 (by omega)
    have h4 := hfail 4 (by omega)
    simp [verify_deployment, verifyAux, h0, h1, h2, h3, h4]

/-- Witness for C3: the fail-four-then-succeed probe yields
`(true, 40)`, the always-failing probe yields `(false, 50)`, and
altering a probe only from the sixth attempt on leaves the result
unchanged. -/
theorem verify_bounded_retries_witness :
    verify_deployment false probeLateOk = (true, 40)
    ∧ verify_deployment false probeAllErr = (false, 50)
    ∧ verify_deployment false probeLateOk
        = verify_deployment false probeAltered :=
  ⟨(verify_bounded_retries probeLateOk probeLateOk).2.1
      (fun i hi => by simp [probeLateOk, hi])
      (by decide),
   (verify_bounded_retries probeAllErr probeAllErr).2.2
      (fun i _ => rfl),
   (verify_bounded_retries probeLateOk probeAltered).1
      (fun i hi => by
        have : i ≠ 7 := by omega
        simp [probeAltered, this])⟩

/-- C6: on a poll tick the loop reports completion exactly when the
fetched descriptor has exactly one deployment generation whose
`rolloutState` is `'COMPLETED'`; a descriptor with more than one
generation, or a single generation in another state, keeps the rollout
in progress (reporting the first generation's running/desired counts),
and an in-progress tick makes the loop sleep one interval and poll
again. -/
theorem wait_completed_iff_single_generation (gens : List Gen) :
    (pollStep gens = .completed ↔
      ∃ g, gens = [g] ∧ g.rolloutState = "COMPLETED")
    ∧ (∀ g rest, gens = g :: rest →
        (rest ≠ [] ∨ g.rolloutState ≠ "COMPLETED") →
        pollStep gens = .inProgress g.runningCount g.desiredCount)
    ∧ (∀ poll timeout elapsed tick r d, elapsed < timeout →
        poll tick = .desc gens →
        pollStep gens = .inProgress r d →
        waitLoop poll timeout elapsed tick =
          waitLoop poll timeout (elapsed + 15) (tick + 1)) := by
  refine ⟨?_, ?_, ?_⟩
  · match gens with
    | [] => simp [pollStep]
    | [g] =>
      by_cases h : g.rolloutState = "COMPLETED" <;> simp [pollStep, h]
    | g :: g' :: rest => simp [pollStep]
  · intro g rest hg hcond
    subst hg
    match rest, hcond with
    | [], .inl h => exact absurd rfl h
    | [], .inr h => simp [pollStep, h]
    | r :: rs, _ => simp [pollStep]
  · intro poll timeout elapsed tick r d hel hdesc hstep
    rw [waitLoop]
    simp [hel, hdesc, hstep]

/-- Witness for C6: a two-generation descriptor is not complete and makes
the loop poll again; a lone `COMPLETED` generation is complete. -/
theorem wait_completed_iff_single_generation_witness :
    pollStep [genInProgress, genInProgress] = .inProgress 1 2
    ∧ pollStep [genCompleted] = .completed
    ∧ waitLoop pollStuck 60 0 0 = waitLoop pollStuck 60 15 1 :=
  ⟨(wait_completed_iff_single_generation
      [genInProgress, genInProgress]).2.1 genInProgress [genInProgress]
      rfl (Or.inl (by decide)),
   (wait_completed_iff_single_generation [genCompleted]).1.mpr
      ⟨genCompleted, rfl, rfl⟩,
   (wait_completed_iff_single_generation
      [genInProgress, genInProgress]).2.2 pollStuck 60 0 0 1 2
      (by decide) rfl rfl⟩

/-- A loop whose every poll yields an in-progress descriptor runs until
the timeout check fails, ending no later than one interval past the
timeout. -/
lemma waitLoop_stuck (poll : Nat → PollOutcome) (timeout : Nat)
    (h : ∀ k, inProgressPoll (poll k)) :
    ∀ n elapsed tick, timeout - elapsed ≤ n → elapsed ≤ timeout + 15 →
      (waitLoop poll timeout elapsed tick).1 = .timedOut ∧
      (waitLoop poll timeout elapsed tick).2.1 ≤ timeout + 15 := by
  intro n
  induction n with
  | zero =>
    intro elapsed tick hn hb
    have hel : ¬ elapsed < timeout := by omega
    rw [waitLoop]
    simp [hel, hb]
  | succ n ih =>
    intro elapsed tick hn hb
    by_cases hel : elapsed < timeout
    · obtain ⟨gens, r, d, hp, hs⟩ := h tick
      rw [waitLoop]
      simp only [dif_pos hel, hp, hs]
      exact ih (elapsed + 15) (tick + 1) (by omega) (by omega)
    · rw [waitLoop]
      simp [hel, hb]

/-- C4: when no polled descriptor ever satisfies the completion
condition, `wait_for_deployment` returns the timed-out (`False`) result,
and since elapsed time is re-checked before every iteration, the total
time spent never exceeds the timeout plus one 15-second poll interval. -/
theorem wait_times_out_within_bound (poll : Nat → PollOutcome)
    (timeout : Nat) (h : ∀ k, inProgressPoll (poll k)) :
    (wait_for_deployment false poll timeout).1 = .timedOut ∧
    (wait_for_deployment false poll timeout).2.1 ≤ timeout + 15 := by
  have := waitLoop_stuck poll timeout h timeout 0 0 (by omega) (by omega)
  simpa [wait_for_deployment] using this

/-- Witness for C4: a rollout stuck at two generations times out within
40 + 15 seconds for a 40-second timeout. -/
theorem wait_times_out_within_bound_witness :
    (wait_for_deployment false pollStuck 40).1 = .timedOut ∧
    (wait_for_deployment false pollStuck 40).2.1 ≤ 55 :=
  wait_times_out_within_bound pollStuck 40
    (fun _ => ⟨[genInProgress, genInProgress], 1, 2, rfl, rfl⟩)

/-- If the first `k` reachable polls are in progress and poll `k` fails,
the loop raises at that poll, having made exactly `k + 1` polls. -/
lemma waitLoop_raises_of_err (poll : Nat → PollOutcome) (timeout : Nat) :
    ∀ k tick elapsed,
      (∀ j, j < k → inProgressPoll (poll (tick + j))) →
      poll (tick + k) = .err →
      elapsed + 15 * k < timeout →
      (waitLoop poll timeout elapsed tick).1 = .raised ∧
      (waitLoop poll timeout elapsed tick).2.2 = tick + k + 1 := by
  intro k
  induction k with
  | zero =>
    intro tick elapsed _ herr hfit
    have hel : elapsed < timeout := by omega
    have herr' : poll tick = .err := by simpa using herr
    rw [waitLoop]
    simp [hel, herr']
  | succ n ih =>
    intro tick elapsed hpre herr hfit
    have hel : elapsed < timeout := by omega
    obtain ⟨gens, r, d, hp, hs⟩ := hpre 0 (by omega)
    have hp' : poll tick = .desc gens := by simpa using hp
    rw [waitLoop]
    simp only [dif_pos hel, hp', hs]
    have hpre' : ∀ j, j < n → inProgressPoll (poll (tick + 1 + j)) := by
      intro j hj
      have := hpre (j + 1) (by omega)
      have harith : tick + (j + 1) = tick + 1 + j := by omega
      rwa [harith] at this
    have herr' : poll (tick + 1 + n) = .err := by
      have harith : tick + (n + 1) = tick + 1 + n := by omega
      rwa [harith] at herr
    have := ih (tick + 1) (elapsed + 15) hpre' herr' (by omega)
    refine ⟨this.1, ?_⟩
    rw [this.2]
    omega

/-- Counterexample to C2: with every poll failing (e.g. the
`describe-services` command exits non-zero, so `run_command` raises
`DeploymentError`), the very first poll failure terminates
`wait_for_deployment` by propagating the exception (`WaitResult.raised`)
after a single poll — the loop does not catch it and keep polling until
the timeout. -/
theorem wait_poll_failure_raises_counterexample :
    wait_for_deployment false pollAllErr 600 = (.raised, 0, 1) := by
  rw [wait_for_deployment]
  norm_num
  rw [waitLoop]
  norm_num [pollAllErr]

/-- C2 (amended): a failure of a single poll (query error or malformed
response) raises an exception that immediately terminates the polling
loop and propagates out of `wait_for_deployment`; polling does not
continue past the failed poll.  The deployment driver `deploy` catches
the exception and reports overall failure as a boolean. -/
theorem wait_poll_failure_raises (poll : Nat → PollOutcome)
    (timeout k : Nat)
    (hpre : ∀ j, j < k → inProgressPoll (poll j))
    (herr : poll k = .err)
    (hfit : 15 * k < timeout) :
    (wait_for_deployment false poll timeout).1 = .raised
    ∧ (wait_for_deployment false poll timeout).2.2 = k + 1
    ∧ (∀ env : ExtEnv, env.poll = poll → 15 * k < 600 →
        (deploy "dev" false false false env).1 = false) := by
  have hmain := waitLoop_raises_of_err poll timeout k 0 0
    (by simpa using hpre) (by simpa using herr) (by omega)
  refine ⟨by simpa [wait_for_deployment] using hmain.1,
    by simpa [wait_for_deployment] using hmain.2, ?_⟩
  intro env hpoll hfit600
  have hw : (wait_for_deployment false env.poll 600).1 = .raised := by
    rw [hpoll]
    have := waitLoop_raises_of_err poll 600 k 0 0
      (by simpa using hpre) (by simpa using herr) (by omega)
    simpa [wait_for_deployment] using this.1
  rcases hcp : check_prerequisites env with ⟨preOk, preCmds⟩
  cases preOk with
  | false => simp [deploy, hcp]
  | true =>
    rcases htf : deploy_terraform false env with ⟨tfRes, tfCmds⟩
    cases tfRes with
    | error e => cases e; simp [deploy, hcp, htf]
    | ok outputs =>
      rcases hbi : build_image false env env.tag with ⟨bRes, bCmds⟩
      cases bRes with
      | error e => cases e; simp [deploy, hcp, htf, hbi]
      | ok image =>
        rcases hpu : push_to_ecr false env image
            ((outputs "ecr_repository").getD "ddgo-api") with ⟨pRes, pCmds⟩
        cases pRes with
        | error e => cases e; simp [deploy, hcp, htf, hbi, hpu]
        | ok ecr_image =>
          rcases hup : update_ecs_service false env
              ((outputs "ecs_cluster_name").getD "ddgo-dev")
              ((outputs "ecs_service_name").getD "ddgo-dev-app")
              ecr_image with ⟨uRes, uCmds⟩
          cases uRes with
          | error e => cases e; simp [deploy, hcp, htf, hbi, hpu, hup]
          | ok _ =>
            rcases hwt : wait_for_deployment false env.poll 600
              with ⟨wRes, wEl, wPolls⟩
            have hwr : wRes = .raised := by
              have := hw
              rw [hwt] at this
              exact this
            subst hwr
            simp [deploy, hcp, htf, hbi, hpu, hup, hwt]

/-- Witness for C2 (amended): with every poll failing, the loop raises
after one poll and the driver reports failure. -/
theorem wait_poll_failure_raises_witness :
    (wait_for_deployment false envPollErr.poll 90).1 = .raised
    ∧ (wait_for_deployment false envPollErr.poll 90).2.2 = 0 + 1
    ∧ (deploy "dev" false false false envPollErr).1 = false := by
  have h := wait_poll_failure_raises envPollErr.poll 90 0
    (fun j hj => absurd hj (by omega)) rfl (by decide)
  exact ⟨h.1, h.2.1, h.2.2 envPollErr rfl (by decide)⟩

/-- Every command `check_prerequisites` attempts is one of the four
read-only prerequisite probes. -/
lemma check_prerequisites_cmds_sub (env : ExtEnv) :
    ∀ c, c ∈ (check_prerequisites env).2 → c ∈ prereqCmds := by
  obtain ⟨d, a, t, cr, co, lo, ou, po, pr, tg, ctd, arn⟩ := env
  cases d <;> cases a <;> cases t <;>
    simp [check_prerequisites, prereqCmds]

/-- In dry-run mode the whole deployment collapses to the prerequisite
check: every later step goes through the dry-run stub of `run_command`
(or an explicit dry-run early return), so no further command is executed
and every later step reports success. -/
lemma deploy_dry_run_eq (environment : String) (sb st : Bool)
    (env : ExtEnv) :
    deploy environment true sb st env = check_prerequisites env := by
  rcases hcp : check_prerequisites env with ⟨preOk, preCmds⟩
  cases preOk with
  | false => simp [deploy, hcp]
  | true =>
    cases sb <;> cases st <;>
      simp [deploy, hcp, deploy_terraform, build_image, push_to_ecr,
        update_ecs_service, run_command, wait_for_deployment,
        verify_deployment]

/-- Counterexample to C7: with every external tool present, a dry-run
deployment still attempts external commands (the prerequisite version
probes and the credential query executed by `check_prerequisites`
through direct `subprocess.run` calls); and with `docker` missing, a
dry-run deployment reports failure rather than no-op success. -/
theorem deploy_dry_run_not_noop_counterexample :
    (deploy "dev" true false false envStuck).2 ≠ []
    ∧ (deploy "dev" true false false envNoDocker).1 = false := by
  constructor
  · decide
  · decide

/-- C7 (amended): when the dry-run flag is set, every state-changing
step of the deployment is short-circuited to a no-op success; only the
prerequisite check still executes external commands, all of which are
read-only probes, and the process reports success exactly when the
prerequisite check passes. -/
theorem deploy_dry_run_only_prereq_probes (environment : String)
    (sb st : Bool) (env : ExtEnv) :
    (deploy environment true sb st env).1 = (check_prerequisites env).1
    ∧ (deploy environment true sb st env).2 = (check_prerequisites env).2
    ∧ (∀ c, c ∈ (deploy environment true sb st env).2 → c ∈ prereqCmds) := by
  rw [deploy_dry_run_eq]
  exact ⟨rfl, rfl, check_prerequisites_cmds_sub env⟩

/-- Witness for C7 (amended): a healthy dry run to staging executes
exactly the prerequisite commands, and the docker probe it runs is one
of the read-only prerequisite probes. -/
theorem deploy_dry_run_only_prereq_probes_witness :
    (deploy "staging" true false false envStuck).2
        = (check_prerequisites envStuck).2
    ∧ ["docker", "--version"] ∈ prereqCmds :=
  ⟨(deploy_dry_run_only_prereq_probes "staging" false false envStuck).2.1,
   (deploy_dry_run_only_prereq_probes "staging" false false envStuck).2.2
      ["docker", "--version"] (by decide)⟩

end DDGo
